import Mathlib

/-!
Verification of the supervisor of the Multi-Agent-System backend.

This file gives a shallow embedding, in Lean 4, of the supervisor components
that the specification's testable claims are about:

* `supervisor/routing.py` — `build_agent_payload`, the per-agent payload
  shaping layer (research scout year-range normalization, adaptive quiz
  master formatting, peer-collaboration discussion-log normalization, ...);
* `supervisor/gemini_chat_orchestrator.py` — `_format_for_quiz_master` and
  the conversation-history maintenance of `process_message`;
* `supervisor/intent_identifier.py` — the confidence gate of
  `identify_intent` and the keyword fallback `_fallback_intent`;
* `supervisor/worker_client.py` — the retry loop of `forward_to_agent`;
* `supervisor/main.py` — the clarification counter of `submit_request`.

Python dynamic values are modelled by the inductive type `PyVal`; Python's
truthiness, `dict.get`, `x or y`, `int(...)`, `str.lower()`, `str.strip()`
and `in` (substring) are modelled by executable functions on `PyVal` and
`String`.  Fallible Python code (unguarded `int()`, `.lower()` on a
non-string) is modelled in the `Except String` monad.  Python `float`
confidence arithmetic is modelled with exact rationals; at the granularity
of the claims (comparisons against 0.4/0.6/0.7/0.85 at multiples of 0.1)
the two agree.  Python `dict` equality ignores insertion order, so the
fixed-key dictionaries produced by the discussion-log normalizer are
modelled by a record type.
-/

/-- A Python runtime value, as far as the supervisor's payload shaping code
manipulates them: `None`, booleans, integers, strings, lists and
string-keyed dicts. -/
inductive PyVal where
  | none : PyVal
  | bool : Bool → PyVal
  | int : Int → PyVal
  | str : String → PyVal
  | list : List PyVal → PyVal
  | dict : List (String × PyVal) → PyVal
deriving Repr

mutual

/-- Decidable equality for `PyVal` (the automatic derivation does not handle
the nested `List` occurrences). -/
def PyVal.decEq : (a b : PyVal) → Decidable (a = b)
  | .none, b =>
    match b with
    | .none => .isTrue rfl
    | .bool _ => .isFalse nofun
    | .int _ => .isFalse nofun
    | .str _ => .isFalse nofun
    | .list _ => .isFalse nofun
    | .dict _ => .isFalse nofun
  | .bool x, b =>
    match b with
    | .bool y =>
      if h : x = y then .isTrue (by rw [h]) else .isFalse (by intro hh; cases hh; exact h rfl)
    | .none => .isFalse nofun
    | .int _ => .isFalse nofun
    | .str _ => .isFalse nofun
    | .list _ => .isFalse nofun
    | .dict _ => .isFalse nofun
  | .int x, b =>
    match b with
    | .int y =>
      if h : x = y then .isTrue (by rw [h]) else .isFalse (by intro hh; cases hh; exact h rfl)
    | .none => .isFalse nofun
    | .bool _ => .isFalse nofun
    | .str _ => .isFalse nofun
    | .list _ => .isFalse nofun
    | .dict _ => .isFalse nofun
  | .str x, b =>
    match b with
    | .str y =>
      if h : x = y then .isTrue (by rw [h]) else .isFalse (by intro hh; cases hh; exact h rfl)
    | .none => .isFalse nofun
    | .bool _ => .isFalse nofun
    | .int _ => .isFalse nofun
    | .list _ => .isFalse nofun
    | .dict _ => .isFalse nofun
  | .list xs, b =>
    match b with
    | .list ys =>
      match PyVal.decEqList xs ys with
      | .isTrue h => .isTrue (by rw [h])
      | .isFalse h => .isFalse (by intro hh; cases hh; exact h rfl)
    | .none => .isFalse nofun
    | .bool _ => .isFalse nofun
    | .int _ => .isFalse nofun
    | .str _ => .isFalse nofun
    | .dict _ => .isFalse nofun
  | .dict xs, b =>
    match b with
    | .dict ys =>
      match PyVal.decEqKvs xs ys with
      | .isTrue h => .isTrue (by rw [h])
      | .isFalse h => .isFalse (by intro hh; cases hh; exact h rfl)
    | .none => .isFalse nofun
    | .bool _ => .isFalse nofun
    | .int _ => .isFalse nofun
    | .str _ => .isFalse nofun
    | .list _ => .isFalse nofun

/-- Decidable equality for lists of `PyVal`. -/
def PyVal.decEqList : (a b : List PyVal) → Decidable (a = b)
  | [], [] => .isTrue rfl
  | [], _ :: _ => .isFalse nofun
  | _ :: _, [] => .isFalse nofun
  | x :: xs, y :: ys =>
    match PyVal.decEq x y with
    | .isFalse h => .isFalse (by intro hh; cases hh; exact h rfl)
    | .isTrue h1 =>
      match PyVal.decEqList xs ys with
      | .isTrue h2 => .isTrue (by rw [h1, h2])
      | .isFalse h => .isFalse (by intro hh; cases hh; exact h rfl)

/-- Decidable equality for string-keyed association lists of `PyVal`. -/
def PyVal.decEqKvs : (a b : List (String × PyVal)) → Decidable (a = b)
  | [], [] => .isTrue rfl
  | [], _ :: _ => .isFalse nofun
  | _ :: _, [] => .isFalse nofun
  | (k1, v1) :: xs, (k2, v2) :: ys =>
    if hk : k1 = k2 then
      match PyVal.decEq v1 v2 with
      | .isFalse h => .isFalse (by intro hh; cases hh; exact h rfl)
      | .isTrue h1 =>
        match PyVal.decEqKvs xs ys with
        | .isTrue h2 => .isTrue (by rw [hk, h1, h2])
        | .isFalse h => .isFalse (by intro hh; cases hh; exact h rfl)
    else .isFalse (by intro hh; cases hh; exact hk rfl)

end

instance : DecidableEq PyVal := PyVal.decEq

instance {ε α : Type} [DecidableEq ε] [DecidableEq α] : DecidableEq (Except ε α) := fun a b =>
  match a, b with
  | .ok x, .ok y =>
    if h : x = y then .isTrue (by rw [h]) else .isFalse (by intro hh; cases hh; exact h rfl)
  | .error x, .error y =>
    if h : x = y then .isTrue (by rw [h]) else .isFalse (by intro hh; cases hh; exact h rfl)
  | .ok _, .error _ => .isFalse nofun
  | .error _, .ok _ => .isFalse nofun

/-- String-keyed Python dict, as an association list (keys are unique in
every dict the supervisor builds; lookup takes the first match). -/
abbrev Kvs := List (String × PyVal)

/-- Python truthiness: `bool(v)`. -/
def truthy : PyVal → Bool
  | .none => false
  | .bool b => b
  | .int n => n != 0
  | .str s => !(s == "")
  | .list xs => !xs.isEmpty
  | .dict kvs => !kvs.isEmpty

/-- Python `d.get(k)` (default `None`). -/
def pyGet (kvs : Kvs) (k : String) : PyVal :=
  match kvs.find? (fun kv => kv.1 == k) with
  | some kv => kv.2
  | Option.none => .none

/-- Python `d.get(k, default)`. -/
def pyGetD (kvs : Kvs) (k : String) (d : PyVal) : PyVal :=
  match kvs.find? (fun kv => kv.1 == k) with
  | some kv => kv.2
  | Option.none => d

/-- Python `k in d` (key membership, regardless of the value's truthiness). -/
def hasKey (kvs : Kvs) (k : String) : Bool :=
  kvs.any (fun kv => kv.1 == k)

/-- Python `a or b`: `a` if truthy, else `b`. -/
def pyOr (a b : PyVal) : PyVal := if truthy a then a else b

/-- Python `v[k]` for dicts (`.none` when not a dict or key missing; the
source only indexes after an `in` check, so the error case is unreachable
there). -/
def pyIndex (v : PyVal) (k : String) : PyVal :=
  match v with
  | .dict kvs => pyGet kvs k
  | _ => .none

/-- Python `int(v)` restricted to the value kinds that can occur here:
ints pass through, booleans become 0/1, strings are parsed as an optionally
signed, whitespace-stripped decimal literal.  `none` means the call raises
(`ValueError` for a non-numeric string, `TypeError` for `None`/lists/dicts). -/
def pyIntOfString (s : String) : Option Int :=
  let cs := (s.toList.dropWhile Char.isWhitespace).reverse.dropWhile Char.isWhitespace |>.reverse
  let (sign, digits) :=
    match cs with
    | '-' :: rest => ((-1 : Int), rest)
    | '+' :: rest => ((1 : Int), rest)
    | rest => ((1 : Int), rest)
  if digits.isEmpty || !digits.all Char.isDigit then Option.none
  else some (sign * (digits.foldl (fun acc c => acc * 10 + (c.toNat - '0'.toNat)) 0 : Nat))

/-- Python `int(v)` in the `Except` monad (exception message abbreviated). -/
def pyInt : PyVal → Except String Int
  | .int n => .ok n
  | .bool b => .ok (if b then 1 else 0)
  | .str s =>
    match pyIntOfString s with
    | some n => .ok n
    | Option.none => .error "ValueError: invalid literal for int() with base 10"
  | _ => .error "TypeError: int() argument must be a string or a number"

/-- Python `s.lower()` (ASCII; the supervisor lowers agent-supplied enum
words and queries). -/
def strLower (s : String) : String := String.mk (s.toList.map Char.toLower)

/-- Python `v.lower()`: defined for strings, raises `AttributeError` on
anything else. -/
def pyLower : PyVal → Except String String
  | .str s => .ok (strLower s)
  | _ => .error "AttributeError: object has no attribute lower"


/-!
## Payload shaping (`supervisor/routing.py`, `build_agent_payload`, and
`supervisor/gemini_chat_orchestrator.py`, `_format_for_*`)

The shapers call `uuid.uuid4()` (fresh session / project / presentation
ids) and `datetime.now()` (today's date).  Those draws are the only
nondeterministic inputs; they are made explicit as an `Env` argument.
-/

/-- The nondeterministic environment a single `build_agent_payload` /
`_format_for_agent` call draws from: the result of its `uuid.uuid4()` call
and today's date from `datetime.now().strftime("%Y-%m-%d")`. -/
structure Env where
  uuid : String
  today : String
deriving Repr, DecidableEq

/-- The difficulty → Bloom-taxonomy map shared verbatim by
`routing.build_agent_payload` and
`GeminiChatOrchestrator._format_for_quiz_master`:
`bloom_map.get(difficulty, "understand")`. -/
def bloomMap (difficulty : String) : String :=
  match [("beginner", "remember"), ("easy", "remember"), ("intermediate", "understand"),
      ("medium", "apply"), ("advanced", "analyze"), ("hard", "evaluate"),
      ("expert", "create")].find? (fun kv => kv.1 == difficulty) with
  | some kv => kv.2
  | Option.none => "understand"

/-- The fields computed by the quiz-master branch before assembling the
nested dict: difficulty (lowered, default `"intermediate"`), Bloom level,
topic (default `"Python Loops"`), user id (default `"default_user"`), and
`num_questions`.  The two call sites differ only in the `num_questions`
conversion, passed in as `numQuestions`. -/
structure QuizCore where
  difficulty : String
  bloom : String
  topic : PyVal
  userId : PyVal
  numQuestions : Int
deriving Repr, DecidableEq

/-- Quiz branch of `routing.build_agent_payload`:
`int(extracted.get("num_questions", 5)) if extracted.get("num_questions") else 5`. -/
def quizNumQuestionsRouting (extracted : Kvs) : Except String Int :=
  if truthy (pyGet extracted "num_questions") then pyInt (pyGetD extracted "num_questions" (.int 5))
  else .ok 5

/-- Orchestrator version, `GeminiChatOrchestrator._format_for_quiz_master`:
`int(params.get("num_questions", 5))` (unguarded). -/
def quizNumQuestionsOrch (params : Kvs) : Except String Int :=
  pyInt (pyGetD params "num_questions" (.int 5))

/-- Shared field computation of the two quiz shapers
(`numQ` is the call site's `num_questions` conversion). -/
def quizCore (extracted : Kvs) (numQ : Kvs → Except String Int) : Except String QuizCore := do
  let difficulty ← pyLower (pyOr (pyGet extracted "difficulty") (.str "intermediate"))
  let bloomLevel := bloomMap difficulty
  let topic := pyOr (pyGet extracted "topic") (pyOr (pyGet extracted "subject") (.str "Python Loops"))
  let nq ← numQ extracted
  pure ⟨difficulty, bloomLevel, topic, pyOr (pyGet extracted "user_id") (.str "default_user"), nq⟩

/-- The nested dict literal returned by both quiz shapers
(`session_id` is the fresh uuid). -/
def assembleQuizPayload (uuid : String) (c : QuizCore) : PyVal :=
  .dict [("agent_name", .str "adaptive_quiz_master_agent"),
    ("intent", .str "generate_adaptive_quiz"),
    ("payload", .dict [
      ("user_info", .dict [("user_id", c.userId), ("learning_level", .str c.difficulty)]),
      ("quiz_request", .dict [
        ("topic", c.topic),
        ("num_questions", .int c.numQuestions),
        ("question_types", .list [.str "mcq", .str "true_false"]),
        ("bloom_taxonomy_level", .str c.bloom),
        ("adaptive", .bool true)]),
      ("session_info", .dict [("session_id", .str uuid)])])]

/-- Quiz branch of `routing.build_agent_payload` (it returns the nested
dict directly, without the base `{"request": ...}` payload). -/
def quizPayloadRouting (env : Env) (extracted : Kvs) : Except String PyVal :=
  (quizCore extracted quizNumQuestionsRouting).map (assembleQuizPayload env.uuid)

/-- Orchestrator formatter `GeminiChatOrchestrator._format_for_quiz_master`. -/
def formatForQuizMaster (env : Env) (params : Kvs) : Except String PyVal :=
  (quizCore params quizNumQuestionsOrch).map (assembleQuizPayload env.uuid)

/-- Model of `re.findall` with the pattern of four decimal digits: the leftmost, non-overlapping runs of
exactly four decimal digits, scanning left to right. -/
def findall4 : List Char → List String
  | c1 :: c2 :: c3 :: c4 :: rest =>
    if c1.isDigit && c2.isDigit && c3.isDigit && c4.isDigit then
      String.mk [c1, c2, c3, c4] :: findall4 rest
    else findall4 (c2 :: c3 :: c4 :: rest)
  | _ => []

/-- Research-scout branch of `routing.build_agent_payload`: builds the
`data` object (topic / keywords / year_range / max_results with fallbacks).
Year-range sources, in the source's order: `year_range` / `yearRange`
value, else `start_year`+`end_year`, else `from_year`+`to_year`, else a
4-digit-year pair extracted from a truthy string `date_range`. -/
def researchYearRangeSource (extracted : Kvs) : PyVal :=
  let yr := pyOr (pyGet extracted "year_range") (pyGet extracted "yearRange")
  if truthy yr then yr
  else if truthy (pyGet extracted "start_year") && truthy (pyGet extracted "end_year") then
    .dict [("from", pyGet extracted "start_year"), ("to", pyGet extracted "end_year")]
  else if truthy (pyGet extracted "from_year") && truthy (pyGet extracted "to_year") then
    .dict [("from", pyGet extracted "from_year"), ("to", pyGet extracted "to_year")]
  else
    match pyGet extracted "date_range" with
    | .str dr =>
      if dr == "" then .none
      else
        match findall4 dr.toList with
        | p1 :: p2 :: _ => .dict [("from", .str p1), ("to", .str p2)]
        | _ => .none
    | _ => .none

/-- Research-scout branch, continued: the emitted `data` dict, in the
source's insertion order. -/
def researchPayload (userRequest : String) (extracted : Kvs) : PyVal :=
  let data : Kvs :=
    (if truthy (pyGet extracted "topic") then [("topic", pyGet extracted "topic")] else [])
    ++ (if truthy (pyGet extracted "keywords") then [("keywords", pyGet extracted "keywords")] else [])
  let data := data ++
    (match researchYearRangeSource extracted with
    | .dict yr =>
      if hasKey yr "from" && hasKey yr "to" then
        [("year_range", .dict [("from", pyGet yr "from"), ("to", pyGet yr "to")])]
      else if hasKey yr "from_year" && hasKey yr "to_year" then
        [("year_range", .dict [("from", pyGet yr "from_year"), ("to", pyGet yr "to_year")])]
      else []
    | _ => [])
  let data := data ++
    (if truthy (pyGet extracted "max_results") then [("max_results", pyGet extracted "max_results")] else [])
  let data := if hasKey data "keywords" then data else data ++ [("keywords", .list [])]
  let data := if hasKey data "topic" then data else data ++ [("topic", .str userRequest)]
  .dict [("request", .str userRequest), ("data", .dict data)]


/-!
## Discussion-log normalization (peer-collaboration branch of
`routing.build_agent_payload`)
-/

/-- Python `\s` / `str.strip()` whitespace: space, tab, newline, carriage
return, vertical tab, form feed. -/
def isPySpace (c : Char) : Bool :=
  c == ' ' || c == '\t' || c == '\n' || c == '\r' || c == Char.ofNat 11 || c == Char.ofNat 12

/-- Python `str.strip()` on a character list. -/
def stripChars (cs : List Char) : List Char :=
  ((cs.dropWhile isPySpace).reverse.dropWhile isPySpace).reverse

/-- Python `s.strip()`. -/
def pythonStrip (s : String) : String := String.mk (stripChars s.toList)

/-- The characters of Python `s.strip('"\'')`: double quote and single
quote. -/
def isQuoteChar (c : Char) : Bool := c == Char.ofNat 34 || c == Char.ofNat 39

/-- Python `s.strip('"\'')`. -/
def stripQuotes (s : String) : String :=
  String.mk (((s.toList.dropWhile isQuoteChar).reverse.dropWhile isQuoteChar).reverse)

/-- Model of `re.match(r'^([^(]+)\s*\(([^)]+)\):\s*(.+)$', s)`, unfolded into direct
scanning.  Because `[^(]+` cannot cross a `(` and `[^)]+` cannot cross a
`)`, the first group is everything before the first `(` (the trailing
`\s*` contributes nothing under greedy matching), the second group is
everything between that `(` and the first `)` after it, which must be
followed by `:`.  The tail `\s*(.+)$` matches when, after greedily
skipping leading whitespace (keeping at least one character for `.+`),
the remainder is non-empty and newline-free; `$` also accepts exactly one
trailing newline. -/
def matchLogPattern (s : String) : Option (String × String × String) :=
  let cs := s.toList
  let g1 := cs.takeWhile (fun c => !(c == '('))
  match cs.dropWhile (fun c => !(c == '(')) with
  | [] => Option.none
  | _ :: rest1 =>
    if g1.isEmpty then Option.none
    else
      let g2 := rest1.takeWhile (fun c => !(c == ')'))
      match rest1.dropWhile (fun c => !(c == ')')) with
      | [] => Option.none
      | _ :: rest3 =>
        if g2.isEmpty then Option.none
        else
          match rest3 with
          | c :: rest4 =>
            if c == ':' then
              let core := if rest4.getLast? == some '\n' then rest4.dropLast else rest4
              let k := (core.takeWhile isPySpace).length
              let g3 := core.drop (min k (core.length - 1))
              if g3.isEmpty || g3.contains '\n' then Option.none
              else some (String.mk g1, String.mk g2, String.mk g3)
            else Option.none
          | [] => Option.none

/-- A normalized discussion-log entry.  The source builds a Python dict
with exactly the keys `user_id`, `message`, `timestamp`; Python dict
equality ignores insertion order (the dict-input branch and the parsed
string branch insert them in different orders), so a record is the
faithful model. -/
structure NormLog where
  user_id : PyVal
  message : PyVal
  timestamp : PyVal
deriving Repr, DecidableEq

/-- One iteration of the normalization loop in the peer-collaboration
branch: a dict is re-keyed with fallbacks, a string is parsed with
`matchLogPattern` (else wrapped as an unknown-user message), anything else
is skipped (`Option.none`: the loop appends nothing). -/
def normalizeLog : PyVal → Option NormLog
  | .dict kvs =>
    some {
      user_id := pyOr (pyGet kvs "user_id") (pyOr (pyGet kvs "user") (pyOr (pyGet kvs "name") (.str "unknown"))),
      message := pyOr (pyGet kvs "message") (pyOr (pyGet kvs "text") (pyOr (pyGet kvs "content") (.str ""))),
      timestamp := pyOr (pyGet kvs "timestamp") (pyOr (pyGet kvs "time") (.str "")) }
  | .str s =>
    match matchLogPattern (pythonStrip s) with
    | some (g1, g2, g3) =>
      some { user_id := .str (pythonStrip g1),
             timestamp := .str (pythonStrip g2),
             message := .str (stripQuotes (pythonStrip g3)) }
    | Option.none =>
      some { user_id := .str "unknown", message := .str s, timestamp := .str "" }
  | _ => Option.none

/-- The whole normalization loop.  (The source guards the loop with
`if discussion_logs:`; looping over an empty list is the same.) -/
def normalizeLogs (logs : List PyVal) : List NormLog :=
  logs.filterMap normalizeLog

/-- A normalized entry as the Python dict the source appends (canonical
key order; see `NormLog`). -/
def normLogToPy (l : NormLog) : PyVal :=
  .dict [("user_id", l.user_id), ("message", l.message), ("timestamp", l.timestamp)]


/-!
## The remaining branches of `routing.build_agent_payload`
-/

/-- Python `dict.update` for unique-keyed dicts: existing keys keep their
position and take the new value; new keys are appended in order. -/
def dictUpdate (base upd : Kvs) : Kvs :=
  base.map (fun kv =>
    match upd.find? (fun kv2 => kv2.1 == kv.1) with
    | some kv2 => (kv.1, kv2.2)
    | Option.none => kv)
  ++ upd.filter (fun kv2 => !(base.any (fun kv => kv.1 == kv2.1)))

/-- Gemini-wrapper branch: optional `modelOverride`, then pass-through of
extracted params other than `topic`/`keywords`/`year_range`/`max_results`. -/
def wrapperPayload (userRequest : String) (extracted : Kvs) : PyVal :=
  let base : Kvs := [("request", .str userRequest)]
  let base := if truthy (pyGet extracted "modelOverride") then
      base ++ [("modelOverride", pyGet extracted "modelOverride")]
    else base
  .dict (dictUpdate base (extracted.filter (fun kv =>
    !(["topic", "keywords", "year_range", "max_results"].contains kv.1))))

/-- Concept-reinforcement branch. -/
def conceptPayload (userRequest : String) (extracted : Kvs) : PyVal :=
  .dict [("request", .str userRequest),
    ("payload", .dict [
      ("student_id", pyOr (pyGet extracted "student_id") (pyOr (pyGet extracted "user_id") (.str "default_student"))),
      ("weak_topics", pyOr (pyGet extracted "weak_topics") (pyOr (pyGet extracted "topics") (.list []))),
      ("preferences", .dict [
        ("learning_style", pyOr (pyGet extracted "learning_style") (.str "visual")),
        ("max_tasks", pyOr (pyGet extracted "max_tasks") (.int 3))])])]

/-- Presentation-feedback branch (`presentation_id` defaults to the fresh
uuid). -/
def presentationPayload (env : Env) (userRequest : String) (extracted : Kvs) : PyVal :=
  .dict [("request", .str userRequest),
    ("data", .dict [
      ("presentation_id", pyOr (pyGet extracted "presentation_id") (.str env.uuid)),
      ("title", pyOr (pyGet extracted "title") (.str "Untitled Presentation")),
      ("presenter_name", pyOr (pyGet extracted "presenter_name") (pyOr (pyGet extracted "user_id") (.str "Anonymous"))),
      ("transcript", pyOr (pyGet extracted "transcript") (.str userRequest)),
      ("metadata", .dict [
        ("language", pyOr (pyGet extracted "language") (.str "en")),
        ("duration_minutes", pyGet extracted "duration_minutes"),
        ("target_audience", pyGet extracted "target_audience"),
        ("presentation_type", pyGet extracted "presentation_type")]),
      ("analysis_parameters", .dict [
        ("focus_areas", pyOr (pyGet extracted "focus_areas")
          (.list [.str "clarity", .str "pacing", .str "engagement", .str "material_relevance", .str "structure"])),
        ("detail_level", pyOr (pyGet extracted "detail_level") (.str "high"))])])]

/-- Daily-revision-proctor branch (`today` is the fresh
`datetime.now().strftime("%Y-%m-%d")`; the float literals `1.0`/`3.0` are
modelled as the integers 1/3 — they are only passed through, never
computed with). -/
def dailyRevisionPayload (env : Env) (extracted : Kvs) : PyVal :=
  let activityLog := pyOr (pyGet extracted "activity_log") (.list [])
  let activityLog := if truthy activityLog then activityLog else
    .list [.dict [("date", .str env.today),
      ("subject", pyOr (pyGet extracted "subject") (.str "General Study")),
      ("hours", pyOr (pyGet extracted "hours") (.int 1)),
      ("status", .str "completed")]]
  .dict [
    ("student_id", pyOr (pyGet extracted "student_id") (pyOr (pyGet extracted "user_id") (.str "1"))),
    ("profile", .dict [
      ("name", pyOr (pyGet extracted "name") (.str "Student")),
      ("grade", pyOr (pyGet extracted "grade") (.str "N/A"))]),
    ("study_schedule", .dict [
      ("preferred_times", pyOr (pyGet extracted "preferred_times") (.list [.str "09:00", .str "14:00", .str "19:00"])),
      ("daily_goal_hours", pyOr (pyGet extracted "daily_goal_hours") (.int 3))]),
    ("activity_log", activityLog),
    ("user_feedback", .dict [
      ("reminder_effectiveness", pyOr (pyGet extracted "reminder_effectiveness") (.int 4)),
      ("motivation_level", pyOr (pyGet extracted "motivation_level") (.str "medium"))]),
    ("context", .dict [
      ("request_type", pyOr (pyGet extracted "request_type") (.str "analysis")),
      ("supervisor_id", .str "supervisor_main"),
      ("priority", .str "normal")])]

/-- Python `[m.strip() for m in s.split(",") if m.strip()]`. -/
def splitCommaStrip (s : String) : List String :=
  ((s.splitOn ",").map pythonStrip).filter (fun m => !(m == ""))

/-- Peer-collaboration branch: team members (comma-split when a string),
discussion logs run through `normalizeLogs`, `project_id` defaulting to
the fresh uuid. -/
def peerPayload (env : Env) (extracted : Kvs) : PyVal :=
  let teamMembers := pyOr (pyGet extracted "team_members") (.list [])
  let teamMembers :=
    match teamMembers with
    | .str s => .list ((splitCommaStrip s).map .str)
    | v => v
  let discussionLogs :=
    match pyOr (pyGet extracted "discussion_logs") (.list []) with
    | .list logs => logs
    | _ => []
  .dict [("agent_name", .str "peer_collaboration_agent"),
    ("intent", .str "analyze_collaboration"),
    ("payload", .dict [
      ("project_id", pyOr (pyGet extracted "project_id") (.str env.uuid)),
      ("team_members", teamMembers),
      ("action", pyOr (pyGet extracted "action") (.str "analyze")),
      ("discussion_logs", .list ((normalizeLogs discussionLogs).map normLogToPy))])]

/-- Exam-readiness branch: enum clamping for assessment type and
difficulty, `question_count` with a guarded `int()` on strings, default
`type_counts`.  The two `.lower()` calls can raise on non-string truthy
values, hence `Except`. -/
def examPayload (extracted : Kvs) : Except String PyVal := do
  let assessmentType ← pyLower (pyOr (pyGet extracted "assessment_type") (.str "quiz"))
  let assessmentType := if ["quiz", "exam", "assignment"].contains assessmentType then assessmentType else "quiz"
  let difficulty ← pyLower (pyOr (pyGet extracted "difficulty") (.str "medium"))
  let difficulty :=
    if ["easy", "medium", "hard"].contains difficulty then difficulty
    else match [("beginner", "easy"), ("intermediate", "medium"), ("advanced", "hard")].find?
        (fun kv => kv.1 == difficulty) with
      | some kv => kv.2
      | Option.none => "medium"
  let questionCount := pyOr (pyGet extracted "question_count") (pyOr (pyGet extracted "num_questions") (.int 5))
  let questionCount :=
    match questionCount with
    | .str s =>
      match pyIntOfString s with
      | some n => PyVal.int n
      | Option.none => PyVal.int 5
    | v => v
  let typeCounts := pyGet extracted "type_counts"
  let typeCounts := if truthy typeCounts then typeCounts else .dict [("mcq", questionCount)]
  pure (.dict [
    ("subject", pyOr (pyGet extracted "subject") (pyOr (pyGet extracted "topic") (.str "General"))),
    ("assessment_type", .str assessmentType),
    ("difficulty", .str difficulty),
    ("question_count", questionCount),
    ("type_counts", typeCounts),
    ("allow_latex", pyGetD extracted "allow_latex" (.bool true)),
    ("created_by", pyOr (pyGet extracted "created_by") (.str "supervisor")),
    ("use_rag", pyGetD extracted "use_rag" (.bool false)),
    ("export_pdf", pyGetD extracted "export_pdf" (.bool false))])

/-- Generic fallback branch: the base request plus the extracted params
under `parameters` when non-empty. -/
def genericPayload (userRequest : String) (extracted : Kvs) : PyVal :=
  .dict ([("request", .str userRequest)] ++
    (if extracted.isEmpty then [] else [("parameters", .dict extracted)]))

/-- The function `routing.build_agent_payload(agent_id, user_request, intent_info)`,
with `extracted = intent_info.get('extracted_params', {})` taken directly
and the fresh draws passed as `env`.  The branch dispatch mirrors the
source's `if agent_id in (...)` chain in order.  `Except` models the
uncaught exceptions the quiz and exam branches can raise. -/
def buildAgentPayload (env : Env) (agentId : String) (userRequest : String) (extracted : Kvs) :
    Except String PyVal :=
  if ["research_scout_agent", "research-scout-agent", "research_scout"].contains agentId then
    .ok (researchPayload userRequest extracted)
  else if ["gemini_wrapper_agent", "gemini-wrapper", "gemini_wrapper"].contains agentId then
    .ok (wrapperPayload userRequest extracted)
  else if ["adaptive_quiz_master_agent", "adaptive-quiz-master", "adaptive_quiz_master"].contains agentId then
    quizPayloadRouting env extracted
  else if ["concept_reinforcement_agent", "concept-reinforcement-agent", "concept_reinforcement"].contains agentId then
    .ok (conceptPayload userRequest extracted)
  else if ["presentation_feedback_agent", "presentation-feedback-agent", "presentation_feedback"].contains agentId then
    .ok (presentationPayload env userRequest extracted)
  else if ["daily_revision_proctor_agent", "daily-revision-proctor-agent", "daily_revision_proctor"].contains agentId then
    .ok (dailyRevisionPayload env extracted)
  else if ["peer_collaboration_agent", "peer-collaboration-agent", "peer_collaboration"].contains agentId then
    .ok (peerPayload env extracted)
  else if ["exam_readiness_agent", "exam-readiness-agent", "exam_readiness"].contains agentId then
    examPayload extracted
  else
    .ok (genericPayload userRequest extracted)


/-!
## Intent identification (`supervisor/intent_identifier.py`)

`identify_intent` calls the LLM oracle; the oracle's outcome (parsed
result, JSON parse error, or a raised exception carrying an error string)
is made explicit as an `OracleOutcome` argument.  Confidences are Python
floats; they are modelled by exact rationals, which agree with float
semantics at the multiples of 0.05 these claims compare.
-/

/-- An agent as the identifier sees it: its registry id and keyword list
(from `config/registry.json`, a deployment file; the identifier code is
generic in it). -/
structure AgentDesc where
  id : String
  keywords : List String
deriving Repr, DecidableEq

/-- Python `needle in hay` for strings (substring containment). -/
def containsSub (needle hay : String) : Bool :=
  hay.toList.tails.any (fun t => needle.toList.isPrefixOf t)

/-- Python `sum(1 for keyword in keywords if keyword.lower() in query_lower)`. -/
def keywordScore (queryLower : String) (kws : List String) : Nat :=
  (kws.filter (fun k => containsSub (strLower k) queryLower)).length

/-- One step of `_fallback_intent`'s best-match loop:
`if score > best_score: best_score, best_match = score, agent_id`. -/
def bestMatchStep (queryLower : String) (acc : Option AgentDesc × Nat) (a : AgentDesc) :
    Option AgentDesc × Nat :=
  let s := keywordScore queryLower a.keywords
  if acc.2 < s then (some a, s) else acc

/-- The best-match loop of `_fallback_intent` (initial state
`best_match = None`, `best_score = 0`). -/
def bestMatchFold (agents : List AgentDesc) (queryLower : String) : Option AgentDesc × Nat :=
  agents.foldl (bestMatchStep queryLower) (Option.none, 0)

/-- The intent result dict produced by `identify_intent` /
`_fallback_intent`. -/
structure IntentResult where
  agent_id : String
  confidence : ℚ
  reasoning : String
  is_ambiguous : Bool
  clarifying_questions : List String
  extracted_params : Kvs
  alternative_agents : List String
deriving Repr, DecidableEq

/-- Source constant `CONFIDENCE_THRESHOLD = 0.60`. -/
def CONFIDENCE_THRESHOLD : ℚ := 3/5

/-- Source constant `MIN_ACCEPTABLE_CONFIDENCE = 0.40`. -/
def MIN_ACCEPTABLE_CONFIDENCE : ℚ := 2/5

/-- The fallback `_fallback_intent(user_query, skip_clarification)`: keyword scoring
over the registry, generous confidence when the LLM is known to be
rate-limited, and a gemini-wrapper ultimate fallback. -/
def fallbackIntent (agents : List AgentDesc) (userQuery : String) (skipClarification : Bool) :
    IntentResult :=
  let queryLower := strLower userQuery
  let best := bestMatchFold agents queryLower
  match best.1 with
  | some a =>
    if 0 < best.2 then
      let confidence : ℚ :=
        if skipClarification then min (17/20) (best.2 * (3/10)) else min (7/10) (best.2 * (1/5))
      { agent_id := a.id,
        confidence := confidence,
        reasoning := if skipClarification then "Keyword matching used (LLM unavailable)"
          else "Fallback keyword matching used",
        is_ambiguous := if skipClarification then false else decide (confidence < CONFIDENCE_THRESHOLD),
        clarifying_questions := [],
        extracted_params := [],
        alternative_agents := [] }
    else
      { agent_id := "gemini_wrapper_agent",
        confidence := if skipClarification then 3/5 else 3/10,
        reasoning := if skipClarification then "Routing to general assistant (LLM unavailable)"
          else "No specific agent matched, using general LLM",
        is_ambiguous := !skipClarification,
        clarifying_questions := [],
        extracted_params := [],
        alternative_agents := [] }
  | Option.none =>
    { agent_id := "gemini_wrapper_agent",
      confidence := if skipClarification then 3/5 else 3/10,
      reasoning := if skipClarification then "Routing to general assistant (LLM unavailable)"
        else "No specific agent matched, using general LLM",
      is_ambiguous := !skipClarification,
      clarifying_questions := [],
      extracted_params := [],
      alternative_agents := [] }

/-- The generic questions injected when the gate forces clarification
without any. -/
def defaultClarifyingQuestions : List String :=
  ["Could you provide more details about what you need help with?",
   "What subject or topic are you working on?",
   "What is your main goal right now?"]

/-- The post-processing `identify_intent` applies to a successfully parsed
LLM result: unknown agent ids are replaced by the wrapper at confidence
0.5, and `confidence < MIN_ACCEPTABLE_CONFIDENCE` forces
`is_ambiguous = true` (filling in generic questions when none were
given). -/
def applyConfidenceGate (knownAgents : List String) (r : IntentResult) : IntentResult :=
  let r :=
    if knownAgents.contains r.agent_id then r
    else { r with
           agent_id := "gemini-wrapper",
           confidence := 1/2,
           reasoning := r.reasoning ++ " (Original agent not found in registry, using fallback)" }
  if r.confidence < MIN_ACCEPTABLE_CONFIDENCE then
    { r with
      is_ambiguous := true,
      clarifying_questions := if r.clarifying_questions.isEmpty then defaultClarifyingQuestions
        else r.clarifying_questions }
  else r

/-- What the LLM oracle call produced: a parsed result, a JSON parse
failure, or a raised exception with its message. -/
inductive OracleOutcome where
  | ok (r : IntentResult)
  | parseError
  | exn (msg : String)
deriving Repr, DecidableEq

/-- Python `"429" in error_str or "quota" in error_str.lower() or "rate" in
error_str.lower()`. -/
def isRateLimitError (msg : String) : Bool :=
  containsSub "429" msg || containsSub "quota" (strLower msg) || containsSub "rate" (strLower msg)

/-- The method `identify_intent`, as a function of the oracle outcome: gate a parsed
result, fall back to keyword matching on failure, skipping clarification
when the failure is a rate limit. -/
def identifyIntent (agents : List AgentDesc) (userQuery : String) (outcome : OracleOutcome) :
    IntentResult :=
  match outcome with
  | .ok r => applyConfidenceGate (agents.map (fun a => a.id)) r
  | .parseError => fallbackIntent agents userQuery false
  | .exn msg =>
    if isRateLimitError msg then fallbackIntent agents userQuery true
    else fallbackIntent agents userQuery false

/-!
## Dispatcher retry loop (`supervisor/worker_client.py`,
`forward_to_agent`)

The loop `for attempt in (1, 2)` POSTs the task envelope; an HTTP error
status (`raise_for_status`) or transport error raises, a body is parsed
into a `CompletionReport` (non-JSON and invalid bodies are repaired into
one, so every non-raising attempt yields a report).  What each attempt
produced on the wire is made explicit as a `WireOutcome`.
-/

/-- What one POST to the worker produced: a raised exception
(transport error or HTTP error status) or a repaired/parsed
`CompletionReport` with its `status` and the `clarification_needed` flag
of its `results`. -/
inductive WireOutcome where
  | exn (msg : String)
  | report (status : String) (clarificationNeeded : Bool)
deriving Repr, DecidableEq

/-- The observable outcome of `forward_to_agent`: how many POSTs were
made, how many 0.5 s inter-attempt sleeps happened, the `error.code` of
the returned `RequestResponse` (`Option.none` for a success response), and
whether the agent was marked `offline`. -/
structure DispatchOutcome where
  posts : Nat
  sleeps : Nat
  errorCode : Option String
  agentMarkedOffline : Bool
deriving Repr, DecidableEq

/-- Normalization of a report reached with `status == "SUCCESS" or
attempt == 2`: success response, else `CLARIFICATION_NEEDED` when
`results.clarification_needed`, else `AGENT_EXECUTION_ERROR`. -/
def reportOutcome (posts sleeps : Nat) (status : String) (clar : Bool) : DispatchOutcome :=
  if status == "SUCCESS" then ⟨posts, sleeps, Option.none, false⟩
  else if clar then ⟨posts, sleeps, some "CLARIFICATION_NEEDED", false⟩
  else ⟨posts, sleeps, some "AGENT_EXECUTION_ERROR", false⟩

/-- The two-attempt loop of `forward_to_agent` (after the health gate):
attempt 1 returns only on a `SUCCESS` report; any other report and any
exception lead to a 0.5 s sleep and a second POST; after attempt 2 a
report is normalized by `reportOutcome`, and a second exception marks the
agent offline and returns `COMMUNICATION_ERROR`. -/
def forwardToAgent (first second : WireOutcome) : DispatchOutcome :=
  match first with
  | .report s1 c1 =>
    if s1 == "SUCCESS" then reportOutcome 1 0 s1 c1
    else
      match second with
      | .report s2 c2 => reportOutcome 2 1 s2 c2
      | .exn _ => ⟨2, 1, some "COMMUNICATION_ERROR", true⟩
  | .exn _ =>
    match second with
    | .report s2 c2 => reportOutcome 2 1 s2 c2
    | .exn _ => ⟨2, 1, some "COMMUNICATION_ERROR", true⟩

/-!
## Clarification counter (`supervisor/main.py`, `submit_request`)
-/

/-- Source constant `MAX_CLARIFICATION_ATTEMPTS = 3`. -/
def MAX_CLARIFICATION_ATTEMPTS : Nat := 3

/-- A stored conversation message as `submit_request` reads it back:
its role, its content, and whether the `intent_info` blob stored with it
has `is_ambiguous` true (user messages are stored without an
`intent_info`, so for them this is false). -/
structure ConvMsg where
  role : String
  content : String
  intentAmbiguous : Bool
deriving Repr, DecidableEq

/-- The clarification counter of `submit_request`:
`for msg in (conversation_history or [])[-MAX_CLARIFICATION_ATTEMPTS:]`,
counting messages whose stored `intent_info` has `is_ambiguous` —
i.e. ambiguous-intent messages among the **last three history entries**
(user replies included in the window). -/
def recentClarifications (history : List ConvMsg) : Nat :=
  ((history.drop (history.length - MAX_CLARIFICATION_ATTEMPTS)).filter
    (fun m => m.intentAmbiguous)).length

/-- Which way `submit_request` goes after counting. -/
inductive RoutingPath where
  | forceRouteToWrapper
  | runIntentIdentification
deriving Repr, DecidableEq

/-- Gate `if recent_clarifications >= MAX_CLARIFICATION_ATTEMPTS:` force-route
to `gemini-wrapper`, else run `routing.decide_agent`. -/
def submitRequestRouting (history : List ConvMsg) : RoutingPath :=
  if MAX_CLARIFICATION_ATTEMPTS ≤ recentClarifications history then .forceRouteToWrapper
  else .runIntentIdentification

/-- An assistant clarification turn as `submit_request` stores it
(`intent_info` of an ambiguous intent attached). -/
def clarificationTurn : ConvMsg :=
  ⟨"assistant", "Clarification requested: I need a bit more information to help you better.", true⟩

/-- A user message as stored by `submit_request` (no `intent_info`). -/
def userTurn (content : String) : ConvMsg := ⟨"user", content, false⟩

/-!
## Conversation-history bound (`supervisor/gemini_chat_orchestrator.py`,
`process_message`)
-/

/-- Source constant `MAX_HISTORY_MESSAGES = 10`. -/
def MAX_HISTORY_MESSAGES : Nat := 10

/-- An entry of the orchestrator's in-memory `conversation_history`. -/
structure ChatTurn where
  role : String
  content : String
deriving Repr, DecidableEq

/-- The start of `process_message`: append the user message, then
`if len(history) > MAX_HISTORY_MESSAGES: history = history[-MAX_HISTORY_MESSAGES:]`. -/
def appendAndTrim (history : List ChatTurn) (m : ChatTurn) : List ChatTurn :=
  let h1 := history ++ [m]
  if MAX_HISTORY_MESSAGES < h1.length then h1.drop (h1.length - MAX_HISTORY_MESSAGES) else h1

/-- The history after one `process_message` call: user message appended
and trimmed, then the assistant reply appended (skipped — `Option.none` —
when the Gemini call raised before the second append). -/
def processMessageHistory (history : List ChatTurn) (userMsg : ChatTurn)
    (assistantMsg : Option ChatTurn) : List ChatTurn :=
  appendAndTrim history userMsg ++ assistantMsg.toList

/-!
## Theorems

Helper accessors used in claim statements.
-/

/-- The `payload.quiz_request` sub-dict of a shaped quiz payload
(`.none` when shaping raised). -/
def quizRequestOf (r : Except String PyVal) : PyVal :=
  match r with
  | .ok p => pyIndex (pyIndex p "payload") "quiz_request"
  | .error _ => .none

/-- The `payload.session_info` sub-dict of a shaped quiz payload. -/
def sessionInfoOf (r : Except String PyVal) : PyVal :=
  match r with
  | .ok p => pyIndex (pyIndex p "payload") "session_info"
  | .error _ => .none

/-- The `data.year_range` of a shaped research payload. -/
def dataYearRangeOf (r : Except String PyVal) : PyVal :=
  match r with
  | .ok p => pyIndex (pyIndex p "data") "year_range"
  | .error _ => .none

/-- The extracted params of the spec's "clear quiz" scenario:
`"Create a 10-question Python quiz at intermediate difficulty"`. -/
def clearQuizParams : Kvs :=
  [("topic", .str "Python"), ("num_questions", .int 10), ("difficulty", .str "intermediate")]

/-- A conversation history that ends with three assistant clarification
turns interleaved with the user's replies — the situation the livelock
escape hatch is specified to catch. -/
def livelockHistory : List ConvMsg :=
  [userTurn "help me", clarificationTurn, userTurn "with my work", clarificationTurn,
   userTurn "the thing", clarificationTurn]

/-- The quiz payload with its `payload.session_info` ignored: everything
`build_agent_payload` computes from the inputs alone. -/
def quizObservables (r : Except String PyVal) : Except String (PyVal × PyVal × PyVal × PyVal) :=
  r.map (fun p => (pyIndex p "agent_name", pyIndex p "intent",
    pyIndex (pyIndex p "payload") "user_info", pyIndex (pyIndex p "payload") "quiz_request"))

/-- The routing branches that consume a fresh draw (`uuid.uuid4()` or
`datetime.now()`): quiz master (session id), presentation feedback
(presentation id), daily revision proctor (today's date), peer
collaboration (project id). -/
def routingBranchDrawsFresh (agentId : String) : Bool :=
  ["adaptive_quiz_master_agent", "adaptive-quiz-master", "adaptive_quiz_master",
   "presentation_feedback_agent", "presentation-feedback-agent", "presentation_feedback",
   "daily_revision_proctor_agent", "daily-revision-proctor-agent", "daily_revision_proctor",
   "peer_collaboration_agent", "peer-collaboration-agent", "peer_collaboration"].contains agentId

/-- C9 (confirmed): the quiz payload shaper is not total: a truthy
`num_questions` string that does not denote an integer, such as `"ten"`,
makes the unguarded `int()` raise `ValueError` in both
`routing.build_agent_payload` and
`GeminiChatOrchestrator._format_for_quiz_master`, while `"10"` is
converted fine. -/
theorem C9_quiz_shaper_not_total :
    buildAgentPayload ⟨"uuid-1", "2026-10-12"⟩ "adaptive_quiz_master_agent" "Create a quiz"
        [("topic", .str "Python"), ("num_questions", .str "ten")]
      = .error "ValueError: invalid literal for int() with base 10"
    ∧ formatForQuizMaster ⟨"uuid-1", "2026-10-12"⟩ [("topic", .str "Python"), ("num_questions", .str "ten")]
      = .error "ValueError: invalid literal for int() with base 10"
    ∧ (buildAgentPayload ⟨"uuid-1", "2026-10-12"⟩ "adaptive_quiz_master_agent" "Create a quiz"
        [("topic", .str "Python"), ("num_questions", .str "10")]).isOk = true := by
  decide

/-- C4, counterexample: on the spec's "clear quiz" scenario
(`topic="Python"`, `num_questions=10`, `difficulty="intermediate"`) the
shaped `bloom_taxonomy_level` is `"understand"`, not `"apply"`: the shared
bloom map sends `"intermediate"` to `"understand"` (it is `"medium"` that
maps to `"apply"`). -/
theorem C4_bloom_counterexample :
    pyIndex (quizRequestOf (buildAgentPayload ⟨"uuid-1", "2026-10-12"⟩ "adaptive_quiz_master_agent"
        "Create a 10-question Python quiz at intermediate difficulty" clearQuizParams))
      "bloom_taxonomy_level" = .str "understand"
    ∧ ¬ pyIndex (quizRequestOf (buildAgentPayload ⟨"uuid-1", "2026-10-12"⟩ "adaptive_quiz_master_agent"
        "Create a 10-question Python quiz at intermediate difficulty" clearQuizParams))
      "bloom_taxonomy_level" = .str "apply" := by
  decide

/-- C4 (amended): on the "clear quiz" scenario the quiz payload has
`quiz_request.topic = "Python"`, `num_questions = 10` and
`bloom_taxonomy_level = "understand"` — in the routing shaper and in the
orchestrator's formatter alike, whatever the fresh uuid draw. -/
theorem C4_clear_quiz_payload :
    ∀ env : Env,
      pyIndex (quizRequestOf (buildAgentPayload env "adaptive_quiz_master_agent"
          "Create a 10-question Python quiz at intermediate difficulty" clearQuizParams)) "topic"
        = .str "Python"
      ∧ pyIndex (quizRequestOf (buildAgentPayload env "adaptive_quiz_master_agent"
          "Create a 10-question Python quiz at intermediate difficulty" clearQuizParams)) "num_questions"
        = .int 10
      ∧ pyIndex (quizRequestOf (buildAgentPayload env "adaptive_quiz_master_agent"
          "Create a 10-question Python quiz at intermediate difficulty" clearQuizParams)) "bloom_taxonomy_level"
        = .str "understand"
      ∧ pyIndex (quizRequestOf (formatForQuizMaster env clearQuizParams)) "topic" = .str "Python"
      ∧ pyIndex (quizRequestOf (formatForQuizMaster env clearQuizParams)) "num_questions" = .int 10
      ∧ pyIndex (quizRequestOf (formatForQuizMaster env clearQuizParams)) "bloom_taxonomy_level"
        = .str "understand" := by
  intro env
  exact ⟨rfl, rfl, rfl, rfl, rfl, rfl⟩

/-- C10 (confirmed): after any `process_message` call the in-memory
conversation history holds at most `MAX_HISTORY_MESSAGES + 1 = 11` entries
(the trim runs after the user append, before the assistant append), and
the bound 11 is attained — so the history is bounded by 11, not 10. -/
theorem C10_history_bounded_by_eleven :
    (∀ (h : List ChatTurn) (u : ChatTurn) (a : Option ChatTurn),
      (processMessageHistory h u a).length ≤ MAX_HISTORY_MESSAGES + 1)
    ∧ (processMessageHistory (List.replicate 10 ⟨"user", "m"⟩) ⟨"user", "m11"⟩
        (some ⟨"assistant", "reply"⟩)).length = MAX_HISTORY_MESSAGES + 1 := by
  constructor
  · intro h u a
    have htrim : (appendAndTrim h u).length ≤ MAX_HISTORY_MESSAGES := by
      simp only [appendAndTrim]
      split
      · rename_i hgt
        rw [List.length_drop]
        omega
      · rename_i hle
        omega
    have ha : a.toList.length ≤ 1 := by cases a <;> simp
    unfold processMessageHistory
    rw [List.length_append]
    omega
  · decide


/-- C1: the livelock escape hatch never fires on interleaved
clarification rounds.  `submit_request` counts ambiguous-intent messages
only within the last `MAX_CLARIFICATION_ATTEMPTS = 3` history entries;
with the user's replies interleaved, at most 2 of those 3 entries are
assistant clarifications, so `recent_clarifications` reaches 2 — not 3 —
after three clarification rounds, and the handler asks a fourth
clarification via intent identification instead of force-routing to the
generic wrapper.  (Third conjunct: the counter is 2 on *every* history
ending `clarification, user reply, clarification`, whatever came
before — the force-route branch is unreachable in interleaved operation.) -/
theorem C1_livelock_escape_never_fires :
    recentClarifications livelockHistory = 2
    ∧ submitRequestRouting livelockHistory = .runIntentIdentification
    ∧ (∀ (pre : List ConvMsg) (reply : String),
        recentClarifications (pre ++ [clarificationTurn, userTurn reply, clarificationTurn]) = 2) := by
  refine ⟨by decide, by decide, ?_⟩
  intro pre reply
  unfold recentClarifications
  have hlen : (pre ++ [clarificationTurn, userTurn reply, clarificationTurn]).length
      = pre.length + 3 := by
    simp
  rw [hlen]
  have hdrop : pre.length + 3 - MAX_CLARIFICATION_ATTEMPTS = pre.length := by
    unfold MAX_CLARIFICATION_ATTEMPTS
    omega
  rw [hdrop, List.drop_left]
  simp [clarificationTurn, userTurn, List.filter]

/-- C3, counterexample: a `CompletionReport` with `status = "FAILURE"` on
the first attempt is *not* returned as `AGENT_EXECUTION_ERROR` without a
second POST — the dispatcher sleeps and POSTs again, and when the retry
reports `SUCCESS` the dispatch succeeds after 2 POSTs. -/
theorem C3_failure_report_is_retried :
    forwardToAgent (.report "FAILURE" false) (.report "SUCCESS" false)
      = ⟨2, 1, Option.none, false⟩
    ∧ (forwardToAgent (.report "FAILURE" false) (.report "SUCCESS" false)).posts ≠ 1
    ∧ (forwardToAgent (.report "FAILURE" false) (.report "SUCCESS" false)).errorCode
      ≠ some "AGENT_EXECUTION_ERROR" := by
  decide

/-- C3 (amended): the dispatcher POSTs at most twice, and POSTs exactly
once iff the first attempt reports `SUCCESS`; the single retry (after one
0.5 s wait) fires on transport failure *or* on any non-`SUCCESS` report;
a non-`SUCCESS`, non-clarification report on the second attempt is
returned as `AGENT_EXECUTION_ERROR`; two transport failures mark the
agent offline and return `COMMUNICATION_ERROR` (also when the first
failure was a non-`SUCCESS` report and the second a transport failure). -/
theorem C3_retry_policy :
    (∀ o1 o2, (forwardToAgent o1 o2).posts ≤ 2)
    ∧ (∀ o1 o2, (forwardToAgent o1 o2).posts = 1 ↔ ∃ c, o1 = .report "SUCCESS" c)
    ∧ (∀ o1 o2, (forwardToAgent o1 o2).sleeps = (forwardToAgent o1 o2).posts - 1)
    ∧ (∀ m1 m2, forwardToAgent (.exn m1) (.exn m2) = ⟨2, 1, some "COMMUNICATION_ERROR", true⟩)
    ∧ (∀ s1 c1 m, s1 ≠ "SUCCESS" →
        forwardToAgent (.report s1 c1) (.exn m) = ⟨2, 1, some "COMMUNICATION_ERROR", true⟩)
    ∧ (∀ s1 c1 s2, s1 ≠ "SUCCESS" → s2 ≠ "SUCCESS" →
        forwardToAgent (.report s1 c1) (.report s2 false) = ⟨2, 1, some "AGENT_EXECUTION_ERROR", false⟩)
    ∧ (∀ c o2, forwardToAgent (.report "SUCCESS" c) o2 = ⟨1, 0, Option.none, false⟩) := by
  have hp : ∀ p sl s c, (reportOutcome p sl s c).posts = p := by
    intro p sl s c
    unfold reportOutcome
    split
    · rfl
    · split <;> rfl
  have hsl : ∀ p sl s c, (reportOutcome p sl s c).sleeps = sl := by
    intro p sl s c
    unfold reportOutcome
    split
    · rfl
    · split <;> rfl
  refine ⟨?_, ?_, ?_, ?_, ?_, ?_, ?_⟩
  · intro o1 o2
    cases o1 with
    | exn m1 =>
      cases o2 with
      | exn m2 =>
        have he : forwardToAgent (.exn m1) (.exn m2) = ⟨2, 1, some "COMMUNICATION_ERROR", true⟩ := rfl
        rw [he]
      | report s2 c2 =>
        have he : forwardToAgent (.exn m1) (.report s2 c2) = reportOutcome 2 1 s2 c2 := rfl
        rw [he, hp]
    | report s1 c1 =>
      cases o2 with
      | exn m2 =>
        simp only [forwardToAgent]
        split
        · rw [hp]
          decide
        · decide
      | report s2 c2 =>
        simp only [forwardToAgent]
        split
        · rw [hp]
          decide
        · rw [hp]
  · intro o1 o2
    cases o1 with
    | exn m =>
      cases o2 with
      | exn m2 => simp [forwardToAgent]
      | report s2 c2 => simp [forwardToAgent, hp]
    | report s1 c1 =>
      cases o2 with
      | exn m2 =>
        simp only [forwardToAgent]
        split
        · rename_i hs
          rw [hp]
          simp only [beq_iff_eq] at hs
          subst hs
          simp
        · rename_i hs
          simp only [beq_iff_eq] at hs
          simp [hs]
      | report s2 c2 =>
        simp only [forwardToAgent]
        split
        · rename_i hs
          rw [hp]
          simp only [beq_iff_eq] at hs
          subst hs
          simp
        · rename_i hs
          rw [hp]
          simp only [beq_iff_eq] at hs
          simp [hs]
  · intro o1 o2
    cases o1 with
    | exn m1 =>
      cases o2 with
      | exn m2 =>
        have he : forwardToAgent (.exn m1) (.exn m2) = ⟨2, 1, some "COMMUNICATION_ERROR", true⟩ := rfl
        rw [he]
        decide
      | report s2 c2 =>
        have he : forwardToAgent (.exn m1) (.report s2 c2) = reportOutcome 2 1 s2 c2 := rfl
        rw [he, hp, hsl]
    | report s1 c1 =>
      cases o2 with
      | exn m2 =>
        simp only [forwardToAgent]
        split
        · rw [hp, hsl]
        · decide
      | report s2 c2 =>
        simp only [forwardToAgent]
        split
        · rw [hp, hsl]
        · rw [hp, hsl]
  · intro m1 m2
    rfl
  · intro s1 c1 m hs
    simp [forwardToAgent, beq_eq_false_iff_ne.mpr hs]
  · intro s1 c1 s2 hs1 hs2
    simp [forwardToAgent, reportOutcome, beq_eq_false_iff_ne.mpr hs1, beq_eq_false_iff_ne.mpr hs2]
  · intro c o2
    cases o2 <;> simp [forwardToAgent, reportOutcome]

/-- Witness for `C3_retry_policy` at concrete inputs: two `FAILURE`
reports give `AGENT_EXECUTION_ERROR` after exactly two POSTs. -/
theorem C3_retry_policy_witness :
    forwardToAgent (.report "FAILURE" false) (.report "FAILURE" false)
      = ⟨2, 1, some "AGENT_EXECUTION_ERROR", false⟩
    ∧ forwardToAgent (.exn "timeout") (.exn "timeout")
      = ⟨2, 1, some "COMMUNICATION_ERROR", true⟩ :=
  ⟨C3_retry_policy.2.2.2.2.2.1 "FAILURE" false "FAILURE" (by decide) (by decide),
   C3_retry_policy.2.2.2.1 "timeout" "timeout"⟩

/-- C2, counterexample: two calls to the payload shaper with identical
`(agent_id, request, extracted_params)` but different `uuid.uuid4()` draws
return different payloads (they differ in
`payload.session_info.session_id`), so payload shaping is not a
deterministic function of those three inputs. -/
theorem C2_shaping_not_deterministic :
    buildAgentPayload ⟨"uuid-a", "2026-10-12"⟩ "adaptive_quiz_master_agent" "Quiz me on Python"
        [("topic", .str "Python")]
      ≠ buildAgentPayload ⟨"uuid-b", "2026-10-12"⟩ "adaptive_quiz_master_agent" "Quiz me on Python"
        [("topic", .str "Python")] := by
  decide



/-- C2 (amended): payload shaping is deterministic up to the fresh draws.
The quiz shaper's output depends on the draw only through
`payload.session_info` (which is exactly `{"session_id": the fresh
uuid}`); every branch that draws nothing fresh — research scout, gemini
wrapper, concept reinforcement, exam readiness, and the generic fallback
for unknown agent ids — is a pure function of
`(agent_id, request, extracted_params)`. -/
theorem C2_shaping_deterministic_up_to_fresh :
    (∀ (env1 env2 : Env) (req : String) (ex : Kvs),
      quizObservables (buildAgentPayload env1 "adaptive_quiz_master_agent" req ex)
        = quizObservables (buildAgentPayload env2 "adaptive_quiz_master_agent" req ex))
    ∧ (∀ (env : Env) (req : String) (ex : Kvs),
      (buildAgentPayload env "adaptive_quiz_master_agent" req ex).isOk = true →
      sessionInfoOf (buildAgentPayload env "adaptive_quiz_master_agent" req ex)
        = .dict [("session_id", .str env.uuid)])
    ∧ (∀ agentId : String, routingBranchDrawsFresh agentId = false →
        ∀ (env1 env2 : Env) (req : String) (ex : Kvs),
          buildAgentPayload env1 agentId req ex = buildAgentPayload env2 agentId req ex) := by
  refine ⟨?_, ?_, ?_⟩
  · intro env1 env2 req ex
    show quizObservables (quizPayloadRouting env1 ex) = quizObservables (quizPayloadRouting env2 ex)
    unfold quizPayloadRouting
    rcases hc : quizCore ex quizNumQuestionsRouting with e | c
    · rfl
    · rfl
  · intro env req ex h
    replace h : (quizPayloadRouting env ex).isOk = true := h
    show sessionInfoOf (quizPayloadRouting env ex) = .dict [("session_id", .str env.uuid)]
    unfold quizPayloadRouting at h ⊢
    rcases hc : quizCore ex quizNumQuestionsRouting with e | c
    · rw [hc] at h
      simp [Except.isOk, Except.toBool, Except.map] at h
    · rfl
  · intro agentId hfresh env1 env2 req ex
    unfold routingBranchDrawsFresh at hfresh
    unfold buildAgentPayload
    repeat' split
    all_goals
      first
      | rfl
      | (exfalso
         rename_i hq
         simp at hq hfresh
         tauto)

/-- Witness for `C2_shaping_deterministic_up_to_fresh` at concrete
inputs: the session dict of a concrete shaped quiz payload, and the
draw-independence of a concrete exam-readiness shaping. -/
theorem C2_shaping_deterministic_witness :
    sessionInfoOf (buildAgentPayload ⟨"uuid-a", "2026-10-12"⟩ "adaptive_quiz_master_agent"
        "Quiz me on Python" [("topic", .str "Python")])
      = .dict [("session_id", .str "uuid-a")]
    ∧ buildAgentPayload ⟨"uuid-a", "2026-10-12"⟩ "exam_readiness_agent" "Assess me"
        [("subject", .str "Math")]
      = buildAgentPayload ⟨"uuid-b", "2026-10-13"⟩ "exam_readiness_agent" "Assess me"
        [("subject", .str "Math")] :=
  ⟨C2_shaping_deterministic_up_to_fresh.2.1 ⟨"uuid-a", "2026-10-12"⟩ "Quiz me on Python"
      [("topic", .str "Python")] (by decide),
   C2_shaping_deterministic_up_to_fresh.2.2 "exam_readiness_agent" (by decide)
      ⟨"uuid-a", "2026-10-12"⟩ ⟨"uuid-b", "2026-10-13"⟩ "Assess me" [("subject", .str "Math")]⟩

theorem truthy_none_eq : truthy .none = false := rfl

theorem truthy_str_eq (s : String) : truthy (.str s) = !(s == "") := rfl

theorem truthy_dict_eq (kvs : Kvs) : truthy (.dict kvs) = !kvs.isEmpty := rfl

/-- C7 (confirmed): the research-scout year-range normalization accepts
every supported form — a `year_range` value `{from, to}`, a `year_range`
value `{from_year, to_year}`, separate truthy `from_year`/`to_year` keys,
separate truthy `start_year`/`end_year` keys, and a bare string
`date_range` such as `"2019-2023"` or `"2019 to 2023"` — and in each case
the shaped payload's `data.year_range` is `{from: first 4-digit year,
to: second 4-digit year}`. -/
theorem C7_year_range_normalization :
    (∀ (env : Env) (req : String) (y1 y2 : PyVal),
      dataYearRangeOf (buildAgentPayload env "research_scout_agent" req
          [("year_range", .dict [("from", y1), ("to", y2)])])
        = .dict [("from", y1), ("to", y2)])
    ∧ (∀ (env : Env) (req : String) (y1 y2 : PyVal),
      dataYearRangeOf (buildAgentPayload env "research_scout_agent" req
          [("year_range", .dict [("from_year", y1), ("to_year", y2)])])
        = .dict [("from", y1), ("to", y2)])
    ∧ (∀ (env : Env) (req : String) (y1 y2 : PyVal), truthy y1 = true → truthy y2 = true →
      dataYearRangeOf (buildAgentPayload env "research_scout_agent" req
          [("from_year", y1), ("to_year", y2)])
        = .dict [("from", y1), ("to", y2)])
    ∧ (∀ (env : Env) (req : String) (y1 y2 : PyVal), truthy y1 = true → truthy y2 = true →
      dataYearRangeOf (buildAgentPayload env "research_scout_agent" req
          [("start_year", y1), ("end_year", y2)])
        = .dict [("from", y1), ("to", y2)])
    ∧ (∀ (env : Env) (req : String),
      dataYearRangeOf (buildAgentPayload env "research_scout_agent" req
          [("date_range", .str "2019-2023")])
        = .dict [("from", .str "2019"), ("to", .str "2023")])
    ∧ (∀ (env : Env) (req : String),
      dataYearRangeOf (buildAgentPayload env "research_scout_agent" req
          [("date_range", .str "2019 to 2023")])
        = .dict [("from", .str "2019"), ("to", .str "2023")]) := by
  refine ⟨?_, ?_, ?_, ?_, ?_, ?_⟩
  · intro env req y1 y2
    rfl
  · intro env req y1 y2
    rfl
  · intro env req y1 y2 h1 h2
    show dataYearRangeOf (.ok (researchPayload req [("from_year", y1), ("to_year", y2)])) = _
    unfold dataYearRangeOf researchPayload researchYearRangeSource
    simp [pyGet, pyOr, hasKey, pyIndex, List.find?, truthy_none_eq, truthy_dict_eq, h1, h2]
  · intro env req y1 y2 h1 h2
    show dataYearRangeOf (.ok (researchPayload req [("start_year", y1), ("end_year", y2)])) = _
    unfold dataYearRangeOf researchPayload researchYearRangeSource
    simp [pyGet, pyOr, hasKey, pyIndex, List.find?, truthy_none_eq, truthy_dict_eq, h1, h2]
  · intro env req
    rfl
  · intro env req
    rfl

/-- Witness for `C7_year_range_normalization` at concrete inputs. -/
theorem C7_year_range_witness :
    dataYearRangeOf (buildAgentPayload ⟨"uuid-1", "2026-10-12"⟩ "research_scout_agent"
        "find papers" [("from_year", .str "2019"), ("to_year", .str "2023")])
      = .dict [("from", .str "2019"), ("to", .str "2023")]
    ∧ dataYearRangeOf (buildAgentPayload ⟨"uuid-1", "2026-10-12"⟩ "research_scout_agent"
        "find papers" [("start_year", .str "2019"), ("end_year", .str "2023")])
      = .dict [("from", .str "2019"), ("to", .str "2023")] :=
  ⟨C7_year_range_normalization.2.2.1 ⟨"uuid-1", "2026-10-12"⟩ "find papers"
      (.str "2019") (.str "2023") (by decide) (by decide),
   C7_year_range_normalization.2.2.2.1 ⟨"uuid-1", "2026-10-12"⟩ "find papers"
      (.str "2019") (.str "2023") (by decide) (by decide)⟩

/-- C6, counterexample: the 0.40 force-clarify threshold does **not**
govern every path.  When the oracle fails with a rate-limit error and
exactly one keyword of some agent hits the query, the fallback returns
confidence `min(0.85, 0.3 × 1) = 0.3 < 0.40` with `is_ambiguous = false`
(clarification deliberately suppressed). -/
theorem C6_rate_limit_bypasses_gate :
    (identifyIntent
        [⟨"adaptive_quiz_master_agent", ["quiz", "flashcards"]⟩,
         ⟨"research_scout_agent", ["papers", "research"]⟩]
        "give me a quiz" (.exn "429 You exceeded your current quota")).confidence
      < MIN_ACCEPTABLE_CONFIDENCE
    ∧ (identifyIntent
        [⟨"adaptive_quiz_master_agent", ["quiz", "flashcards"]⟩,
         ⟨"research_scout_agent", ["papers", "research"]⟩]
        "give me a quiz" (.exn "429 You exceeded your current quota")).is_ambiguous = false := by
  constructor
  · have h : (identifyIntent
        [⟨"adaptive_quiz_master_agent", ["quiz", "flashcards"]⟩,
         ⟨"research_scout_agent", ["papers", "research"]⟩]
        "give me a quiz" (.exn "429 You exceeded your current quota")).confidence
        = min ((17:ℚ)/20) (((1:Nat):ℚ) * ((3:ℚ)/10)) := rfl
    rw [h]
    unfold MIN_ACCEPTABLE_CONFIDENCE
    norm_num [min_def]
  · rfl

/-- C6 (amended): `confidence < 0.40` forces `is_ambiguous = true` on the
LLM path (the gate of `identify_intent`) and on the non-rate-limited
keyword fallback; the rate-limited fallback (`skip_clarification=True`)
is the exception — it reports `is_ambiguous = false` even below 0.40. -/
theorem C6_force_clarify_gate :
    (∀ (known : List String) (r : IntentResult),
      (applyConfidenceGate known r).confidence < MIN_ACCEPTABLE_CONFIDENCE →
      (applyConfidenceGate known r).is_ambiguous = true)
    ∧ (∀ (agents : List AgentDesc) (q : String),
      (fallbackIntent agents q false).confidence < MIN_ACCEPTABLE_CONFIDENCE →
      (fallbackIntent agents q false).is_ambiguous = true) := by
  constructor
  · intro known r
    simp only [applyConfidenceGate]
    split
    · split
      · intro _
        rfl
      · intro h
        rename_i h2
        exact absurd h h2
    · split
      · intro _
        rfl
      · intro h
        rename_i h2
        exact absurd h h2
  · intro agents q
    simp only [fallbackIntent]
    split
    · split
      · intro h
        dsimp only at h ⊢
        simp only [Bool.false_eq_true, if_false] at h ⊢
        rw [decide_eq_true_iff]
        refine lt_trans h ?_
        unfold MIN_ACCEPTABLE_CONFIDENCE CONFIDENCE_THRESHOLD
        norm_num
      · intro _
        rfl
    · intro _
      rfl

theorem applyConfidenceGate_confidence (known : List String) (r : IntentResult) :
    (applyConfidenceGate known r).confidence
      = if known.contains r.agent_id then r.confidence else 1/2 := by
  simp only [applyConfidenceGate]
  split <;> split <;> rfl

/-- Witness for `C6_force_clarify_gate` at concrete inputs: the
no-keyword-hit fallback (confidence 0.3) and a gated LLM result of
confidence 0.2 both come back ambiguous. -/
theorem C6_force_clarify_gate_witness :
    (fallbackIntent [] "" false).is_ambiguous = true
    ∧ (applyConfidenceGate ["gemini-wrapper"]
        ⟨"gemini-wrapper", 1/5, "low-confidence parse", false, [], [], []⟩).is_ambiguous = true :=
  ⟨C6_force_clarify_gate.2 [] "" (by
      have h : (fallbackIntent [] "" false).confidence = (3:ℚ)/10 := rfl
      rw [h]
      unfold MIN_ACCEPTABLE_CONFIDENCE
      norm_num),
   C6_force_clarify_gate.1 ["gemini-wrapper"]
     ⟨"gemini-wrapper", 1/5, "low-confidence parse", false, [], [], []⟩ (by
      rw [applyConfidenceGate_confidence]
      norm_num [MIN_ACCEPTABLE_CONFIDENCE])⟩

theorem bestMatchFold_snd_le (ql : String) (agents : List AgentDesc)
    (acc : Option AgentDesc × Nat) :
    acc.2 ≤ (agents.foldl (bestMatchStep ql) acc).2 := by
  induction agents generalizing acc with
  | nil => exact Nat.le_refl _
  | cons a as ih =>
    simp only [List.foldl_cons]
    refine Nat.le_trans ?_ (ih (bestMatchStep ql acc a))
    simp only [bestMatchStep]
    split
    · exact Nat.le_of_lt (by assumption)
    · exact Nat.le_refl _

theorem bestMatchFold_le_of_mem (ql : String) (agents : List AgentDesc) :
    ∀ (acc : Option AgentDesc × Nat), ∀ a ∈ agents,
      keywordScore ql a.keywords ≤ (agents.foldl (bestMatchStep ql) acc).2 := by
  induction agents with
  | nil =>
    intro acc a ha
    exact absurd ha (List.not_mem_nil a)
  | cons b bs ih =>
    intro acc a ha
    simp only [List.foldl_cons]
    rcases List.mem_cons.mp ha with rfl | hmem
    · refine Nat.le_trans ?_ (bestMatchFold_snd_le ql bs (bestMatchStep ql acc a))
      simp only [bestMatchStep]
      split
      · exact Nat.le_refl _
      · exact Nat.le_of_not_lt (by assumption)
    · exact ih (bestMatchStep ql acc b) a hmem

theorem bestMatchFold_some_mem (ql : String) (agents : List AgentDesc) :
    ∀ (acc : Option AgentDesc × Nat) (a : AgentDesc),
      (agents.foldl (bestMatchStep ql) acc).1 = some a →
      (acc.1 = some a ∧ (agents.foldl (bestMatchStep ql) acc).2 = acc.2)
      ∨ (a ∈ agents ∧ keywordScore ql a.keywords = (agents.foldl (bestMatchStep ql) acc).2) := by
  induction agents with
  | nil =>
    intro acc a h
    exact Or.inl ⟨h, rfl⟩
  | cons b bs ih =>
    intro acc a h
    simp only [List.foldl_cons] at h ⊢
    rcases ih (bestMatchStep ql acc b) a h with ⟨h1, h2⟩ | ⟨hmem, hsc⟩
    · simp only [bestMatchStep] at h1 h2 ⊢
      by_cases hlt : acc.2 < keywordScore ql b.keywords
      · rw [if_pos hlt] at h1 h2 ⊢
        simp only [Option.some.injEq] at h1
        subst h1
        right
        exact ⟨List.mem_cons_self _ _, h2.symm⟩
      · rw [if_neg hlt] at h1 h2 ⊢
        exact Or.inl ⟨h1, h2⟩
    · right
      exact ⟨List.mem_cons_of_mem _ hmem, hsc⟩

theorem bestMatchFold_pos_some (ql : String) (agents : List AgentDesc) :
    0 < (bestMatchFold agents ql).2 → ∃ a, (bestMatchFold agents ql).1 = some a := by
  have key : ∀ (l : List AgentDesc) (acc : Option AgentDesc × Nat),
      (0 < acc.2 → ∃ x, acc.1 = some x) →
      0 < (l.foldl (bestMatchStep ql) acc).2 → ∃ x, (l.foldl (bestMatchStep ql) acc).1 = some x := by
    intro l
    induction l with
    | nil =>
      intro acc hacc
      exact hacc
    | cons b bs ih =>
      intro acc hacc
      simp only [List.foldl_cons]
      refine ih (bestMatchStep ql acc b) ?_
      intro hpos
      simp only [bestMatchStep] at hpos ⊢
      by_cases hlt : acc.2 < keywordScore ql b.keywords
      · rw [if_pos hlt]
        exact ⟨b, rfl⟩
      · rw [if_neg hlt] at hpos ⊢
        exact hacc hpos
  intro hpos
  exact key agents (Option.none, 0) (fun h0 => absurd h0 (by omega)) hpos

theorem fallbackIntent_matched_props (agents : List AgentDesc) (q : String) (skip : Bool)
    (hpos : 0 < (bestMatchFold agents (strLower q)).2) :
    (∃ a, a ∈ agents ∧ (fallbackIntent agents q skip).agent_id = a.id
      ∧ keywordScore (strLower q) a.keywords = (bestMatchFold agents (strLower q)).2)
    ∧ (fallbackIntent agents q skip).confidence
      = (if skip then min ((17:ℚ)/20) (((bestMatchFold agents (strLower q)).2 : ℚ) * (3/10))
         else min ((7:ℚ)/10) (((bestMatchFold agents (strLower q)).2 : ℚ) * (1/5)))
    ∧ (fallbackIntent agents q skip).clarifying_questions = [] := by
  obtain ⟨a, ha⟩ := bestMatchFold_pos_some (strLower q) agents hpos
  rcases bestMatchFold_some_mem (strLower q) agents (Option.none, 0) a ha with ⟨h1, _⟩ | ⟨hmem, hsc⟩
  · exact absurd h1 (by simp)
  · refine ⟨⟨a, hmem, ?_, hsc⟩, ?_, ?_⟩ <;>
      · simp only [fallbackIntent, ha]
        rw [if_pos hpos]

theorem fallbackIntent_skip_no_clarification (agents : List AgentDesc) (q : String) :
    (fallbackIntent agents q true).is_ambiguous = false
    ∧ (fallbackIntent agents q true).clarifying_questions = [] := by
  simp only [fallbackIntent]
  split
  · split
    · exact ⟨rfl, rfl⟩
    · exact ⟨rfl, rfl⟩
  · exact ⟨rfl, rfl⟩

/-- C5 (confirmed): whenever the LLM oracle fails other than by rate
limit (JSON parse error, or a raised error not mentioning 429 / quota /
rate), the keyword fallback scores each agent by the number of its
keywords occurring in the lowercased query, returns a top scorer
(its id, with maximal score over the registry) at confidence
`min(0.7, 0.2 × hits)` and no clarifying questions; when the failure is a
rate limit, the fallback instead returns `min(0.85, 0.3 × hits)` with
`is_ambiguous = false` and no clarifying questions, so a rate-limited
request never produces a clarification turn. -/
theorem C5_keyword_fallback :
    (∀ (agents : List AgentDesc) (q : String) (outcome : OracleOutcome),
      (outcome = .parseError ∨ ∃ msg, outcome = .exn msg ∧ isRateLimitError msg = false) →
      0 < (bestMatchFold agents (strLower q)).2 →
      (∃ a, a ∈ agents ∧ (identifyIntent agents q outcome).agent_id = a.id
        ∧ keywordScore (strLower q) a.keywords = (bestMatchFold agents (strLower q)).2)
      ∧ (∀ b ∈ agents, keywordScore (strLower q) b.keywords ≤ (bestMatchFold agents (strLower q)).2)
      ∧ (identifyIntent agents q outcome).confidence
        = min ((7:ℚ)/10) (((bestMatchFold agents (strLower q)).2 : ℚ) * (1/5))
      ∧ (identifyIntent agents q outcome).clarifying_questions = [])
    ∧ (∀ (agents : List AgentDesc) (q msg : String), isRateLimitError msg = true →
      (identifyIntent agents q (.exn msg)).is_ambiguous = false
      ∧ (identifyIntent agents q (.exn msg)).clarifying_questions = []
      ∧ (0 < (bestMatchFold agents (strLower q)).2 →
        (identifyIntent agents q (.exn msg)).confidence
          = min ((17:ℚ)/20) (((bestMatchFold agents (strLower q)).2 : ℚ) * (3/10)))) := by
  constructor
  · intro agents q outcome hout hpos
    have hred : identifyIntent agents q outcome = fallbackIntent agents q false := by
      rcases hout with rfl | ⟨msg, rfl, hrate⟩
      · rfl
      · simp only [identifyIntent, hrate, Bool.false_eq_true, if_false]
    rw [hred]
    obtain ⟨hbest, hconf, hq⟩ := fallbackIntent_matched_props agents q false hpos
    refine ⟨hbest, ?_, ?_, hq⟩
    · exact fun b hb => bestMatchFold_le_of_mem (strLower q) agents (Option.none, 0) b hb
    · rw [hconf]
      rfl
  · intro agents q msg hrate
    have hred : identifyIntent agents q (.exn msg) = fallbackIntent agents q true := by
      simp only [identifyIntent, hrate, if_true]
    rw [hred]
    obtain ⟨hamb, hq⟩ := fallbackIntent_skip_no_clarification agents q
    refine ⟨hamb, hq, ?_⟩
    intro hpos
    obtain ⟨_, hconf, _⟩ := fallbackIntent_matched_props agents q true hpos
    rw [hconf]
    rfl

/-- Witness for `C5_keyword_fallback` at a concrete registry and query:
a parse failure routes by keywords without clarifying questions, and a
rate-limited failure comes back unambiguous. -/
theorem C5_keyword_fallback_witness :
    (identifyIntent [⟨"adaptive_quiz_master_agent", ["quiz", "flashcards"]⟩]
      "give me a quiz" .parseError).clarifying_questions = []
    ∧ (identifyIntent [⟨"adaptive_quiz_master_agent", ["quiz", "flashcards"]⟩]
      "give me a quiz" (.exn "HTTP 429: rate limit exceeded")).is_ambiguous = false :=
  ⟨(C5_keyword_fallback.1 [⟨"adaptive_quiz_master_agent", ["quiz", "flashcards"]⟩]
      "give me a quiz" .parseError (Or.inl rfl) (by decide)).2.2.2,
   (C5_keyword_fallback.2 [⟨"adaptive_quiz_master_agent", ["quiz", "flashcards"]⟩]
      "give me a quiz" "HTTP 429: rate limit exceeded" (by decide)).1⟩

theorem dropWhile_head_false (p : Char → Bool) (l : List Char) (c : Char)
    (h : (l.dropWhile p).head? = some c) : p c = false := by
  induction l with
  | nil => simp [List.dropWhile] at h
  | cons a l ih =>
    rw [List.dropWhile_cons] at h
    by_cases hp : p a
    · rw [if_pos hp] at h
      exact ih h
    · rw [if_neg hp] at h
      simp only [List.head?_cons, Option.some.injEq] at h
      subst h
      cases hb : p a with
      | true => exact absurd hb hp
      | false => rfl

theorem isPrefix_head (l1 l2 : List Char) (h : l1 <+: l2) (c : Char)
    (hh : l1.head? = some c) : l2.head? = some c := by
  obtain ⟨t, rfl⟩ := h
  cases l1 with
  | nil => simp at hh
  | cons a l => simpa using hh

theorem stripChars_prefix_dropWhile (cs : List Char) :
    stripChars cs <+: cs.dropWhile isPySpace := by
  unfold stripChars
  have h1 : (cs.dropWhile isPySpace).reverse.dropWhile isPySpace
      <:+ (cs.dropWhile isPySpace).reverse :=
    List.dropWhile_suffix _
  have h2 := List.reverse_prefix.mpr h1
  rwa [List.reverse_reverse] at h2

theorem stripChars_head_false (cs : List Char) (c : Char)
    (h : (stripChars cs).head? = some c) : isPySpace c = false :=
  dropWhile_head_false isPySpace cs c (isPrefix_head _ _ (stripChars_prefix_dropWhile cs) c h)

theorem stripChars_ne_nil (cs : List Char) (c : Char) (hh : cs.head? = some c)
    (hc : isPySpace c = false) : stripChars cs ≠ [] := by
  cases cs with
  | nil => simp at hh
  | cons a l =>
    simp only [List.head?_cons, Option.some.injEq] at hh
    rw [← hh] at hc
    unfold stripChars
    rw [List.dropWhile_cons, if_neg (by simp [hc])]
    intro hnil
    rw [List.reverse_eq_nil_iff] at hnil
    have hall := List.dropWhile_eq_nil_iff.mp hnil
    have hmem : a ∈ (a :: l).reverse := by
      rw [List.mem_reverse]
      exact List.mem_cons_self _ _
    rw [hall a hmem] at hc
    exact Bool.noConfusion hc

theorem takeWhile_head_eq (p : Char → Bool) (l : List Char)
    (h : l.takeWhile p ≠ []) : (l.takeWhile p).head? = l.head? := by
  cases l with
  | nil => simp at h
  | cons a l =>
    rw [List.takeWhile_cons] at h ⊢
    by_cases hp : p a
    · rw [if_pos hp]
      simp
    · rw [if_neg hp] at h
      exact absurd rfl h

theorem matchLogPattern_g1 (s : String) (g1 g2 g3 : String)
    (h : matchLogPattern s = some (g1, g2, g3)) :
    g1.toList = s.toList.takeWhile (fun c => !(c == '(')) ∧ g1.toList ≠ [] := by
  simp only [matchLogPattern] at h
  repeat' split at h
  all_goals try exact Option.noConfusion h
  all_goals
    simp only [Option.some.injEq, Prod.mk.injEq] at h
    obtain ⟨h1, _, _⟩ := h
    subst h1
    refine ⟨rfl, ?_⟩
    have hne2 : ¬ (s.toList.takeWhile (fun c => !(c == '('))).isEmpty = true := by assumption
    rw [List.isEmpty_iff] at hne2
    intro hnil
    exact hne2 hnil

theorem strMk_truthy (l : List Char) (h : l ≠ []) : truthy (.str (String.mk l)) = true := by
  have hb : (String.mk l == "") = false := by
    rw [beq_eq_false_iff_ne]
    intro he
    apply h
    have h2 := congrArg String.toList he
    simpa using h2
  simp [truthy, hb]

theorem truthy_pyOr_right (a b : PyVal) (hb : truthy b = true) : truthy (pyOr a b) = true := by
  unfold pyOr
  split
  · assumption
  · exact hb

theorem pyOr_truthyOrEmpty (a b : PyVal) (hb : truthy b = true ∨ b = .str "") :
    truthy (pyOr a b) = true ∨ pyOr a b = .str "" := by
  unfold pyOr
  split
  · exact Or.inl (by assumption)
  · exact hb

theorem strTruthyOrEmpty (s : String) : truthy (.str s) = true ∨ PyVal.str s = .str "" := by
  by_cases h : s = ""
  · exact Or.inr (by rw [h])
  · refine Or.inl ?_
    simp [truthy, h]

theorem pyOr_none_left (b : PyVal) : pyOr .none b = b := rfl

theorem normalizeLog_invariant (v : PyVal) (nl : NormLog) (h : normalizeLog v = some nl) :
    truthy nl.user_id = true
    ∧ (truthy nl.message = true ∨ nl.message = .str "")
    ∧ (truthy nl.timestamp = true ∨ nl.timestamp = .str "") := by
  cases v with
  | dict kvs =>
    simp only [normalizeLog, Option.some.injEq] at h
    subst h
    refine ⟨?_, ?_, ?_⟩
    · exact truthy_pyOr_right _ _ (truthy_pyOr_right _ _ (truthy_pyOr_right _ _ (by decide)))
    · exact pyOr_truthyOrEmpty _ _ (pyOr_truthyOrEmpty _ _ (pyOr_truthyOrEmpty _ _ (Or.inr rfl)))
    · exact pyOr_truthyOrEmpty _ _ (pyOr_truthyOrEmpty _ _ (Or.inr rfl))
  | str s =>
    simp only [normalizeLog] at h
    split at h
    · rename_i g1 g2 g3 hm
      simp only [Option.some.injEq] at h
      subst h
      refine ⟨?_, strTruthyOrEmpty _, strTruthyOrEmpty _⟩
      obtain ⟨hg1, hne⟩ := matchLogPattern_g1 (pythonStrip s) g1 g2 g3 hm
      have htw : (pythonStrip s).toList.takeWhile (fun c => !(c == '(')) ≠ [] := by
        rw [← hg1]
        exact hne
      have hhead : g1.toList.head? = (pythonStrip s).toList.head? := by
        rw [hg1]
        exact takeWhile_head_eq _ _ htw
      rcases hh : (pythonStrip s).toList.head? with _ | c
      · rw [hh] at hhead
        rcases hx : g1.toList with _ | ⟨a, l⟩
        · exact absurd hx hne
        · rw [hx] at hhead
          simp at hhead
      · have hcns : isPySpace c = false := stripChars_head_false s.toList c hh
        have hg1head : g1.toList.head? = some c := by
          rw [hhead, hh]
        have hnn : stripChars g1.toList ≠ [] := stripChars_ne_nil g1.toList c hg1head hcns
        exact strMk_truthy _ hnn
    · simp only [Option.some.injEq] at h
      subst h
      exact ⟨rfl, strTruthyOrEmpty _, Or.inr rfl⟩
  | none => simp [normalizeLog] at h
  | bool b => simp [normalizeLog] at h
  | int n => simp [normalizeLog] at h
  | list xs => simp [normalizeLog] at h

theorem normalizeLog_roundtrip (nl : NormLog)
    (h1 : truthy nl.user_id = true)
    (h2 : truthy nl.message = true ∨ nl.message = .str "")
    (h3 : truthy nl.timestamp = true ∨ nl.timestamp = .str "") :
    normalizeLog (normLogToPy nl) = some nl := by
  obtain ⟨u, m, t⟩ := nl
  simp only at h1 h2 h3
  have hu : pyOr u (pyOr PyVal.none (pyOr PyVal.none (.str "unknown"))) = u := by
    simp [pyOr, h1]
  have hm : pyOr m (pyOr PyVal.none (pyOr PyVal.none (.str ""))) = m := by
    rcases h2 with h2 | h2
    · simp [pyOr, h2]
    · subst h2
      rfl
  have ht : pyOr t (pyOr PyVal.none (.str "")) = t := by
    rcases h3 with h3 | h3
    · simp [pyOr, h3]
    · subst h3
      rfl
  simp only [normLogToPy, normalizeLog, pyGet, List.find?]
  norm_num
  exact ⟨hu, hm, ht⟩

/-- C8 (confirmed): the discussion-log normalizer of the
peer-collaboration payload is idempotent — normalizing the (Python-dict)
output of a previous normalization returns it unchanged, for every input
list of logs (dicts, strings, or skipped other values). -/
theorem C8_normalizer_idempotent (logs : List PyVal) :
    normalizeLogs ((normalizeLogs logs).map normLogToPy) = normalizeLogs logs := by
  induction logs with
  | nil => rfl
  | cons v vs ih =>
    simp only [normalizeLogs, List.filterMap_cons] at ih ⊢
    cases h : normalizeLog v with
    | none => exact ih
    | some nl =>
      obtain ⟨h1, h2, h3⟩ := normalizeLog_invariant v nl h
      simp only [List.map_cons, List.filterMap_cons, normalizeLog_roundtrip nl h1 h2 h3]
      rw [ih]
